import Mathlib

/-!
Shallow embedding of the ipc-rs named-semaphore library (src/unix.rs and
src/windows.rs).  Host system calls (semget, semctl, semop, open, ftok,
CreateSemaphoreW, WaitForSingleObject, ...) are modelled by oracles that
describe the outcome the host returns for each call; every library
function is translated into a Lean function of the oracle, returning the
library-visible result together with the trace of kernel operations the
function issued.  Machine-integer casts that appear in the source
(`cnt as libc::c_short`, `cnt as libc::LONG`) are modelled explicitly as
truncating two's-complement conversions on Nat/Int.
-/

namespace IpcRs

/-- Errno value EEXIST on Linux, as used via `libc::EEXIST`. -/
def EEXIST : Nat := 17

/-- Errno value EINTR on Linux, as used via `libc::EINTR`. -/
def EINTR : Nat := 4

/-- Errno value EAGAIN on Linux, as used via `libc::EAGAIN`. -/
def EAGAIN : Nat := 11

/-- The SEM_UNDO flag bit; 0x1000 on Linux and 0o10000 on macOS, the same
numeric value on both platforms (src/unix.rs consts module). -/
def SEM_UNDO : Nat := 0x1000

/-- The IPC_NOWAIT flag bit, `libc::IPC_NOWAIT` (0o4000 on Linux). -/
def IPC_NOWAIT : Nat := 0o4000

/-- Truncating conversion of a Rust `usize` value to `libc::c_short`
(16-bit two's complement), the semantics of `cnt as libc::c_short`. -/
def toInt16 (n : Nat) : Int :=
  let m := n % 65536
  if m < 32768 then (m : Int) else (m : Int) - 65536

/-- Truncating conversion of a Rust `usize` value to `libc::LONG`
(32-bit two's complement), the semantics of `cnt as libc::LONG`. -/
def toInt32 (n : Nat) : Int :=
  let m := n % 4294967296
  if m < 2147483648 then (m : Int) else (m : Int) - 4294967296

/-- One kernel operation issued by the unix backend against the System V
semaphore facility.  The trace of these operations is recorded alongside
each function's result. -/
inductive KernelOp where
  /-- semget(key, 1, IPC_CREAT | IPC_EXCL | 0o666): exclusive create. -/
  | semgetExcl
  /-- semget(key, 1, 0): open an existing set, no create flags. -/
  | semgetOpen
  /-- semctl(semid, 0, SETVAL, val): raw set of the element's value. -/
  | setval (semid : Nat) (val : Nat)
  /-- semop(semid, buf, 1) with sem_num 0, operation `op`, flags `flg`. -/
  | semop (semid : Nat) (op : Int) (flg : Nat)
  /-- semctl(semid, 0, IPC_STAT, buf): metadata read of the set. -/
  | statRead (semid : Nat)
  /-- semctl(semid, 0, IPC_RMID): destroy the set. -/
  | rmid (semid : Nat)
deriving DecidableEq, Repr

/-- Error value returned by `Semaphore::new` on the unix backend:
either a raw OS error (`Error::last_os_error()`) or the dedicated
`ErrorKind::TimedOut` error built in the polling loop. -/
inductive IpcError where
  | osError (errno : Nat)
  | timedOut
deriving DecidableEq, Repr

/-- Oracle describing the outcomes the System V host returns for the
calls made inside `Semaphore::new` (src/unix.rs lines 80-127).
`Except.ok semid` for a semget means a nonnegative id was returned;
`Except.error e` means -1 was returned with errno `e`.  For semctl and
semop, `none` means the call returned 0 and `some e` means it returned
nonzero with errno `e`.  `stat_result k` is the outcome of the k-th
IPC_STAT read: an errno, or the `sem_otime` field read back. -/
structure SysvHost where
  semget_excl : Except Nat Nat
  setval_result : Option Nat
  semop_init_result : Option Nat
  semget_open : Except Nat Nat
  stat_result : Nat → Except Nat Int

/-- The joiner's polling loop (src/unix.rs lines 106-123): up to `fuel`
iterations (1000 in the source), each doing one IPC_STAT read; a read
error is returned immediately, a nonzero `sem_otime` ends the loop with
success, and exhausting the budget yields the TimedOut error.  `k` is
the index of the next read in the oracle. -/
def joinPoll (host : SysvHost) (semid : Nat) : Nat → Nat → Except IpcError Nat × List KernelOp
  | 0, _ => (Except.error IpcError.timedOut, [])
  | fuel + 1, k =>
    match host.stat_result k with
    | Except.error e => (Except.error (IpcError.osError e), [KernelOp.statRead semid])
    | Except.ok otime =>
      if otime ≠ 0 then (Except.ok semid, [KernelOp.statRead semid])
      else
        let rest := joinPoll host semid fuel (k + 1)
        (rest.1, KernelOp.statRead semid :: rest.2)

/-- Embedding of `Semaphore::new` on the unix backend (src/unix.rs lines
80-127), after the key has been obtained: attempt an exclusive create;
on success run SETVAL 0 then a single semop of `cnt as c_short` with
sem_flg 0, destroying the set and returning the first error if either
fails; on EEXIST reopen with semget(key, 1, 0) and poll sem_otime up to
1000 times; any other error is returned immediately.  Returns the
result (semid or error) and the trace of kernel operations issued. -/
def semNew (host : SysvHost) (cnt : Nat) : Except IpcError Nat × List KernelOp :=
  match host.semget_excl with
  | Except.ok semid =>
    match host.setval_result with
    | some e =>
      (Except.error (IpcError.osError e),
        [KernelOp.semgetExcl, KernelOp.setval semid 0, KernelOp.rmid semid])
    | none =>
      match host.semop_init_result with
      | some e =>
        (Except.error (IpcError.osError e),
          [KernelOp.semgetExcl, KernelOp.setval semid 0,
            KernelOp.semop semid (toInt16 cnt) 0, KernelOp.rmid semid])
      | none =>
        (Except.ok semid,
          [KernelOp.semgetExcl, KernelOp.setval semid 0,
            KernelOp.semop semid (toInt16 cnt) 0])
  | Except.error e =>
    if e = EEXIST then
      match host.semget_open with
      | Except.error e2 =>
        (Except.error (IpcError.osError e2), [KernelOp.semgetExcl, KernelOp.semgetOpen])
      | Except.ok semid =>
        let rest := joinPoll host semid 1000 0
        (rest.1, KernelOp.semgetExcl :: KernelOp.semgetOpen :: rest.2)
    else
      (Except.error (IpcError.osError e), [KernelOp.semgetExcl])

/-- Effect of one kernel operation on the semaphore element's value,
following the System V semantics of the operations the trace records:
SETVAL overwrites the value, a successful semop adds its operand, and
the other operations leave the value unchanged. -/
def applyOp (v : Int) : KernelOp → Int
  | KernelOp.setval _ x => (x : Int)
  | KernelOp.semop _ op _ => v + op
  | _ => v

/-- Value of the semaphore element after a trace of successful kernel
operations, starting from an arbitrary (undefined) initial value. -/
def applyTrace (v : Int) (ops : List KernelOp) : Int :=
  ops.foldl applyOp v

/-- Number of IPC_STAT metadata reads in a trace. -/
def statReads (ops : List KernelOp) : Nat :=
  (ops.filter fun o => match o with | KernelOp.statRead _ => true | _ => false).length

/-- Whether a trace contains a raw SETVAL operation; issuing one marks
the initializer (race-winner) path of the create-or-join protocol. -/
def hasSetval (ops : List KernelOp) : Bool :=
  ops.any fun o => match o with | KernelOp.setval _ _ => true | _ => false

/-! Key derivation and rendezvous establishment (src/unix.rs lines
134-192).  The hash is std's DefaultHasher applied to the tuple
`(name, "ipc-rs")`; DefaultHasher lives in the standard library, outside
this repository, so it is kept abstract as a curried parameter
`h : String → String → Nat` of the derivation.  Paths are modelled as
their list of components, with the system temp directory abstract. -/

/-- The character filter of `Semaphore::filename` (src/unix.rs line 145):
`(*a as u32) < 128 && a.is_alphanumeric()`.  Rust's Unicode
`char::is_alphanumeric`, restricted by the guard to code points below
128, holds exactly on the ASCII letters and digits, which is how it is
rendered here. -/
def filenameCharOk (a : Char) : Bool :=
  decide (a.toNat < 128) && (a.isAlpha || a.isDigit)

/-- The sanitized fragment of the semaphore name: its characters kept in
order when `filenameCharOk` accepts them (src/unix.rs lines 143-146). -/
def filenameFragment (name : String) : String :=
  (name.data.filter filenameCharOk).asString

/-- Embedding of `Semaphore::filename` (src/unix.rs lines 142-152):
`env::temp_dir().join("ipc-rs-sems").join(fragment ++ "-" ++ hash)`,
where the hash is taken of the pair `(name, "ipc-rs")`. -/
def semFilename (h : String → String → Nat) (tempDir : List String) (name : String) :
    List String :=
  tempDir ++ ["ipc-rs-sems", filenameFragment name ++ "-" ++ toString (h name "ipc-rs")]

/-- Spec-side rendering of the fragment of C8, written from the spec's
words: the name filtered to its ASCII alphanumeric characters in order.
To be compared with `filenameFragment`, which follows the source. -/
def specAsciiAlnumFragment (name : String) : String :=
  (name.data.filter fun c => c.isAlpha || c.isDigit).asString

/-- Oracle for the host calls inside `Semaphore::key` (src/unix.rs lines
158-192): the two `fs::create_dir_all` attempts (`none` means Ok, `some e`
an I/O error; per std's documented behavior create_dir_all returns Ok
when the directory already exists, so `some e` is never an
already-exists outcome), the raw return value of `libc::open` with
O_EXCL | O_CREAT | O_RDWR and the errno after a failed open, and the raw
return value of `libc::ftok` with the errno after a failure. -/
structure FsHost where
  create_dir1 : Option Nat
  create_dir2 : Option Nat
  open_ret : Int
  open_errno : Nat
  ftok_ret : Int
  ftok_errno : Nat

/-- Observable outcome of `Semaphore::key`: a key, an error returned as
the function's Result, or a process abort (the `.unwrap()` panic). -/
inductive KeyOutcome where
  | ok (key : Int)
  | err (errno : Nat)
  | abort
deriving DecidableEq, Repr

/-- Whether a key-derivation outcome is an error value returned to the
caller (as opposed to success or a process abort). -/
def KeyOutcome.isErrValue : KeyOutcome → Bool
  | KeyOutcome.err _ => true
  | _ => false

/-- The ftok step of `Semaphore::key` (src/unix.rs lines 186-191): the
key if ftok did not return -1, otherwise the errno as an error. -/
def ftokStep (host : FsHost) : KeyOutcome :=
  if host.ftok_ret ≠ -1 then KeyOutcome.ok host.ftok_ret
  else KeyOutcome.err host.ftok_errno

/-- Embedding of `Semaphore::key` after the filename is built
(src/unix.rs lines 158-192).  The first `fs::create_dir_all` result is
discarded (`let _ = ...`); the second is unwrapped, so its failure
aborts the process rather than producing an error value.  Then the token
file is opened with O_EXCL | O_CREAT; a positive fd is closed and an
EEXIST failure is treated as success, any other open failure is returned
as an error.  Finally ftok is invoked. -/
def semKey (host : FsHost) : KeyOutcome :=
  match host.create_dir2 with
  | some _ => KeyOutcome.abort
  | none =>
    if host.open_ret > 0 then ftokStep host
    else if host.open_errno = EEXIST then ftokStep host
    else KeyOutcome.err host.open_errno

/-! The wait / try_wait / post operations (src/unix.rs lines 194-236 and
src/windows.rs lines 57-78). -/

/-- The sembuf built by `Semaphore::modify` (src/unix.rs lines 225-236):
sem_num 0, sem_op the requested amount, and sem_flg equal to
(IPC_NOWAIT when not waiting, else 0) OR-ed with SEM_UNDO. -/
structure Sembuf where
  sem_num : Nat
  sem_op : Int
  sem_flg : Nat
deriving DecidableEq, Repr

/-- The sem_flg computed by `Semaphore::modify` for a given wait mode. -/
def modifyFlg (wait : Bool) : Nat :=
  Nat.lor (if wait then 0 else IPC_NOWAIT) SEM_UNDO

/-- The full sembuf passed to semop by `Semaphore::modify`. -/
def modifyBuf (amt : Int) (wait : Bool) : Sembuf :=
  { sem_num := 0, sem_op := amt, sem_flg := modifyFlg wait }

/-- The sembuf issued by `Semaphore::wait` via `self.modify(-1, true)`. -/
def waitBuf : Sembuf := modifyBuf (-1) true

/-- The sembuf issued by `Semaphore::try_wait` via `self.modify(-1, false)`. -/
def tryWaitBuf : Sembuf := modifyBuf (-1) false

/-- The sembuf issued by `Semaphore::post` via `self.modify(1, true)`. -/
def postBuf : Sembuf := modifyBuf 1 true

/-- Observable outcome of an operation returning unit: a normal return,
or a process abort through panic. -/
inductive UnitOutcome where
  | returned
  | panicked (errno : Nat)
deriving DecidableEq, Repr

/-- Observable outcome of `try_wait`: a returned boolean, or a process
abort through panic. -/
inductive TryOutcome where
  | ret (b : Bool)
  | panicked
deriving DecidableEq, Repr

/-- Outcome of the retry loop in `Semaphore::wait`: a normal return
after `k` failed attempts, a panic, or fuel exhaustion (the source loop
is unbounded; fuel only truncates the observation). -/
inductive WaitOutcome where
  | returned (k : Nat)
  | panicked (errno : Nat)
  | fuelOut
deriving DecidableEq, Repr

/-- Embedding of the loop in `Semaphore::wait` (src/unix.rs lines
194-205) over an oracle giving each semop attempt's outcome (`none` for
return value 0, `some e` for a failure with errno `e`): return on
success, retry on EINTR, panic on any other errno. -/
def unixWaitLoop (env : Nat → Option Nat) : Nat → Nat → WaitOutcome
  | 0, _ => WaitOutcome.fuelOut
  | fuel + 1, k =>
    match env k with
    | none => WaitOutcome.returned k
    | some e => if e = EINTR then unixWaitLoop env fuel (k + 1) else WaitOutcome.panicked e

/-- `Semaphore::wait` on the unix backend, run with `fuel` observable
attempts. -/
def unixWait (env : Nat → Option Nat) (fuel : Nat) : WaitOutcome :=
  unixWaitLoop env fuel 0

/-- Dispatch of `Semaphore::try_wait` (src/unix.rs lines 207-216) on the
outcome of its single `modify(-1, false)` call: true on success, false
on EAGAIN, panic otherwise. -/
def unixTryDispatch (r : Option Nat) : TryOutcome :=
  match r with
  | none => TryOutcome.ret true
  | some e => if e = EAGAIN then TryOutcome.ret false else TryOutcome.panicked

/-- System V semantics of the non-blocking decrement that try_wait's
sembuf requests (sem_op = -1 with IPC_NOWAIT, on a well-behaved host):
EAGAIN and no change when the value is 0, success and a decrement by one
otherwise.  Returns the semop outcome and the new value. -/
def sysvTryDec (v : Nat) : Option Nat × Nat :=
  if v = 0 then (some EAGAIN, v) else (none, v - 1)

/-- `Semaphore::try_wait` on the unix backend against a well-behaved
host holding count `v`: the returned outcome and the count afterwards. -/
def unixTryWait (v : Nat) : TryOutcome × Nat :=
  ((unixTryDispatch (sysvTryDec v).1), (sysvTryDec v).2)

/-! Windows backend (src/windows.rs). -/

/-- Return code WAIT_OBJECT_0 of WaitForSingleObject. -/
def WAIT_OBJECT_0 : Nat := 0

/-- Return code WAIT_TIMEOUT (0x102), as defined in src/windows.rs. -/
def WAIT_TIMEOUT : Nat := 0x102

/-- Return code WAIT_FAILED (0xFFFFFFFF), as defined in src/windows.rs. -/
def WAIT_FAILED : Nat := 0xFFFFFFFF

/-- The object name built by the windows `Semaphore::new` (src/windows.rs
lines 37-41): `Global\` followed by the name with backslashes removed,
a dash, and the hash of the pair `(name, "ipc-rs")`. -/
def winSemName (h : String → String → Nat) (name : String) : String :=
  "Global\\" ++ (name.replace "\\" "") ++ "-" ++ toString (h name "ipc-rs")

/-- The arguments the windows `Semaphore::new` passes to CreateSemaphoreW
(src/windows.rs lines 44-49): initial count `cnt as libc::LONG`, maximum
count `i32::MAX`, and the derived object name. -/
structure WinCreateCall where
  initialCount : Int
  maximumCount : Int
  objName : String
deriving DecidableEq, Repr

/-- Embedding of the CreateSemaphoreW call issued by the windows
`Semaphore::new` for a given name and count. -/
def winNewCall (h : String → String → Nat) (name : String) (cnt : Nat) : WinCreateCall :=
  { initialCount := toInt32 cnt, maximumCount := 2147483647, objName := winSemName h name }

/-- Dispatch of the windows `Semaphore::wait` (src/windows.rs lines
57-63) on the code WaitForSingleObject(handle, INFINITE) returns:
return on WAIT_OBJECT_0, panic on anything else. -/
def winWaitDispatch (code : Nat) : UnitOutcome :=
  if code = WAIT_OBJECT_0 then UnitOutcome.returned else UnitOutcome.panicked code

/-- Dispatch of the windows `Semaphore::try_wait` (src/windows.rs lines
65-72) on the code WaitForSingleObject(handle, 0) returns: true on
WAIT_OBJECT_0, false on WAIT_TIMEOUT, panic on anything else. -/
def winTryDispatch (code : Nat) : TryOutcome :=
  if code = WAIT_OBJECT_0 then TryOutcome.ret true
  else if code = WAIT_TIMEOUT then TryOutcome.ret false
  else TryOutcome.panicked

/-- Semantics of WaitForSingleObject with timeout 0 on a well-behaved
host holding a semaphore of count `v`: WAIT_TIMEOUT and no change when
the count is 0, WAIT_OBJECT_0 and a decrement by one otherwise. -/
def winTryDec (v : Nat) : Nat × Nat :=
  if v = 0 then (WAIT_TIMEOUT, v) else (WAIT_OBJECT_0, v - 1)

/-- The windows `Semaphore::try_wait` against a well-behaved host
holding count `v`: the returned outcome and the count afterwards. -/
def winTryWait (v : Nat) : TryOutcome × Nat :=
  ((winTryDispatch (winTryDec v).1), (winTryDec v).2)

/-! Helper lemmas about the polling loop and the wait retry loop. -/

theorem joinPoll_mem_statRead (host : SysvHost) (semid : Nat) :
    ∀ fuel k o, o ∈ (joinPoll host semid fuel k).2 → o = KernelOp.statRead semid := by
  intro fuel
  induction fuel with
  | zero =>
    intro k o ho
    simp [joinPoll] at ho
  | succ n ih =>
    intro k o ho
    cases hs : host.stat_result k with
    | error e =>
      simp only [joinPoll, hs] at ho
      simpa using ho
    | ok t =>
      by_cases ht : t = 0
      · subst ht
        simp only [joinPoll, hs, ne_eq, not_true_eq_false, if_false] at ho
        rcases List.mem_cons.mp ho with h | h
        · exact h
        · exact ih (k + 1) o h
      · simp only [joinPoll, hs, ne_eq, ht, not_false_eq_true, if_true] at ho
        simpa using ho

theorem joinPoll_length_le (host : SysvHost) (semid : Nat) :
    ∀ fuel k, (joinPoll host semid fuel k).2.length ≤ fuel := by
  intro fuel
  induction fuel with
  | zero =>
    intro k
    simp [joinPoll]
  | succ n ih =>
    intro k
    cases hs : host.stat_result k with
    | error e =>
      simp [joinPoll, hs]
    | ok t =>
      by_cases ht : t = 0
      · subst ht
        simp only [joinPoll, hs, ne_eq, not_true_eq_false, if_false, List.length_cons]
        simpa using Nat.succ_le_succ (ih (k + 1))
      · simp [joinPoll, hs, ht]

theorem joinPoll_all_zero (host : SysvHost) (semid : Nat) :
    ∀ fuel k, (∀ j, k ≤ j → j < k + fuel → host.stat_result j = Except.ok 0) →
      joinPoll host semid fuel k =
        (Except.error IpcError.timedOut, List.replicate fuel (KernelOp.statRead semid)) := by
  intro fuel
  induction fuel with
  | zero =>
    intro k _
    rfl
  | succ n ih =>
    intro k hall
    have h0 : host.stat_result k = Except.ok 0 := hall k le_rfl (by omega)
    simp only [joinPoll, h0]
    rw [if_neg (by simp)]
    rw [ih (k + 1) (fun j hj1 hj2 => hall j (by omega) (by omega))]
    simp [List.replicate_succ]

theorem joinPoll_first_nonzero (host : SysvHost) (semid : Nat) :
    ∀ i fuel k t, i < fuel → (∀ j, j < i → host.stat_result (k + j) = Except.ok 0) →
      host.stat_result (k + i) = Except.ok t → t ≠ 0 →
      joinPoll host semid fuel k =
        (Except.ok semid, List.replicate (i + 1) (KernelOp.statRead semid)) := by
  intro i
  induction i with
  | zero =>
    intro fuel k t hfuel _ ht htne
    obtain ⟨m, rfl⟩ : ∃ m, fuel = m + 1 := ⟨fuel - 1, by omega⟩
    rw [Nat.add_zero] at ht
    simp only [joinPoll, ht]
    rw [if_pos htne]
    rfl
  | succ m ih =>
    intro fuel k t hfuel hzero ht htne
    obtain ⟨f, rfl⟩ : ∃ f, fuel = f + 1 := ⟨fuel - 1, by omega⟩
    have h0 : host.stat_result k = Except.ok 0 := by
      have := hzero 0 (by omega)
      rwa [Nat.add_zero] at this
    simp only [joinPoll, h0]
    rw [if_neg (by simp)]
    have harg : ∀ j, j < m → host.stat_result (k + 1 + j) = Except.ok 0 := by
      intro j hj
      have := hzero (j + 1) (by omega)
      have he : k + (j + 1) = k + 1 + j := by omega
      rwa [he] at this
    have ht' : host.stat_result (k + 1 + m) = Except.ok t := by
      have he : k + (m + 1) = k + 1 + m := by omega
      rwa [he] at ht
    rw [ih f (k + 1) t (by omega) harg ht' htne]
    simp [List.replicate_succ]

theorem statReads_replicate (n : Nat) (s : Nat) :
    statReads (List.replicate n (KernelOp.statRead s)) = n := by
  induction n with
  | zero => rfl
  | succ m ih =>
    simp only [statReads, List.replicate_succ, List.filter, List.length_cons] at *
    omega

theorem statReads_le_length (ops : List KernelOp) : statReads ops ≤ ops.length :=
  List.length_filter_le _ ops

theorem unixWaitLoop_returned (env : Nat → Option Nat) :
    ∀ fuel k0 k, unixWaitLoop env fuel k0 = WaitOutcome.returned k →
      env k = none ∧ k0 ≤ k ∧ ∀ j, k0 ≤ j → j < k → env j = some EINTR := by
  intro fuel
  induction fuel with
  | zero =>
    intro k0 k h
    simp [unixWaitLoop] at h
  | succ n ih =>
    intro k0 k h
    cases he : env k0 with
    | none =>
      simp only [unixWaitLoop, he] at h
      have hk : k0 = k := by simpa using h
      subst hk
      exact ⟨he, le_rfl, fun j hj1 hj2 => by omega⟩
    | some e =>
      by_cases hee : e = EINTR
      · simp only [unixWaitLoop, he, hee, if_true] at h
        obtain ⟨h1, h2, h3⟩ := ih (k0 + 1) k h
        refine ⟨h1, by omega, fun j hj1 hj2 => ?_⟩
        rcases Nat.eq_or_lt_of_le hj1 with heq | hlt
        · rw [← heq, he, hee]
        · exact h3 j (by omega) hj2
      · simp only [unixWaitLoop, he, hee, if_false] at h
        cases h

theorem unixWaitLoop_success (env : Nat → Option Nat) :
    ∀ fuel k0 k, k0 ≤ k → k < k0 + fuel → env k = none →
      (∀ j, k0 ≤ j → j < k → env j = some EINTR) →
      unixWaitLoop env fuel k0 = WaitOutcome.returned k := by
  intro fuel
  induction fuel with
  | zero =>
    intro k0 k h1 h2
    omega
  | succ n ih =>
    intro k0 k h1 h2 hnone hintr
    rcases Nat.eq_or_lt_of_le h1 with heq | hlt
    · subst heq
      simp only [unixWaitLoop, hnone]
    · have hk0 : env k0 = some EINTR := hintr k0 le_rfl hlt
      simp only [unixWaitLoop, hk0, if_true]
      exact ih (k0 + 1) k (by omega) (by omega) hnone
        (fun j hj1 hj2 => hintr j (by omega) hj2)

theorem alnum_toNat_lt (c : Char) (h : (c.isAlpha || c.isDigit) = true) : c.toNat < 128 := by
  simp only [Char.isAlpha, Char.isUpper, Char.isLower, Char.isDigit, Bool.or_eq_true,
    Bool.and_eq_true, decide_eq_true_eq] at h
  rcases h with (⟨h1, h2⟩ | ⟨h1, h2⟩) | ⟨h1, h2⟩ <;>
    exact Nat.lt_of_le_of_lt (show c.val.toNat ≤ _ from h2) (by decide)

theorem filenameCharOk_eq (c : Char) : filenameCharOk c = (c.isAlpha || c.isDigit) := by
  unfold filenameCharOk
  cases h : (c.isAlpha || c.isDigit) with
  | false => rw [Bool.and_false]
  | true =>
    rw [Bool.and_true]
    exact decide_eq_true (alnum_toNat_lt c h)

theorem unixWaitLoop_panic (env : Nat → Option Nat) :
    ∀ fuel k0 k e, k0 ≤ k → k < k0 + fuel → env k = some e → e ≠ EINTR →
      (∀ j, k0 ≤ j → j < k → env j = some EINTR) →
      unixWaitLoop env fuel k0 = WaitOutcome.panicked e := by
  intro fuel
  induction fuel with
  | zero =>
    intro k0 k e h1 h2
    omega
  | succ n ih =>
    intro k0 k e h1 h2 hsome hne hintr
    rcases Nat.eq_or_lt_of_le h1 with heq | hlt
    · rw [← heq] at hsome
      simp only [unixWaitLoop, hsome, hne, if_false]
    · have hk0 : env k0 = some EINTR := hintr k0 le_rfl hlt
      simp only [unixWaitLoop, hk0, if_true]
      exact ih (k0 + 1) k e (by omega) (by omega) hsome hne
        (fun j hj1 hj2 => hintr j (by omega) hj2)

theorem hasSetval_joinTrace (host : SysvHost) (semid : Nat) (fuel k : Nat) :
    hasSetval (KernelOp.semgetExcl :: KernelOp.semgetOpen :: (joinPoll host semid fuel k).2)
      = false := by
  simp only [hasSetval, List.any_cons, Bool.false_or]
  rw [List.any_eq_false]
  intro o ho
  rw [joinPoll_mem_statRead host semid fuel k o ho]
  simp

theorem statReads_cons_join (l : List KernelOp) :
    statReads (KernelOp.semgetExcl :: KernelOp.semgetOpen :: l) = statReads l := by
  simp [statReads, List.filter]

theorem semNew_join (host : SysvHost) (cnt : Nat) (semid : Nat)
    (hc : host.semget_excl = Except.error EEXIST)
    (hop : host.semget_open = Except.ok semid) :
    semNew host cnt = ((joinPoll host semid 1000 0).1,
      KernelOp.semgetExcl :: KernelOp.semgetOpen :: (joinPoll host semid 1000 0).2) := by
  simp [semNew, hc, hop]

theorem toInt16_of_lt (n : Nat) (h : n < 32768) : toInt16 n = n := by
  simp only [toInt16]
  rw [Nat.mod_eq_of_lt (by omega), if_pos h]

theorem toInt32_of_lt (n : Nat) (h : n < 2147483648) : toInt32 n = n := by
  simp only [toInt32]
  rw [Nat.mod_eq_of_lt (by omega), if_pos h]

/-! Concrete hosts used by the witnesses and counterexamples. -/

/-- Host on which the exclusive create and both initializer steps succeed. -/
def hostCreatorOk : SysvHost :=
  { semget_excl := Except.ok 7, setval_result := none, semop_init_result := none,
    semget_open := Except.ok 7, stat_result := fun _ => Except.ok 1 }

/-- Host on which the creator's SETVAL fails with errno 28. -/
def hostSetvalFail : SysvHost := { hostCreatorOk with setval_result := some 28 }

/-- Host on which the creator's initializing semop fails with errno 28. -/
def hostSemopFail : SysvHost := { hostCreatorOk with semop_init_result := some 28 }

/-- Host on which the exclusive create loses the race and the set is ready. -/
def hostJoinReady : SysvHost :=
  { semget_excl := Except.error EEXIST, setval_result := none, semop_init_result := none,
    semget_open := Except.ok 9, stat_result := fun _ => Except.ok 1 }

/-- Host on which the joined set's sem_otime stays 0 forever. -/
def hostJoinStuck : SysvHost := { hostJoinReady with stat_result := fun _ => Except.ok 0 }

/-- Host on which the reopen after losing the race fails with errno 2. -/
def hostJoinOpenFail : SysvHost := { hostJoinReady with semget_open := Except.error 2 }

/-- Host on which the exclusive create fails with errno 13 (not EEXIST). -/
def hostOtherErr : SysvHost := { hostCreatorOk with semget_excl := Except.error 13 }

/-- C1: the process takes the initializer path (issues the raw SETVAL) if
and only if the exclusive create-and-allocate succeeds; an EEXIST failure
leads to a single open-only reopen whose own failure is returned
immediately (the trace shows exactly one semget-open and nothing after
it); any create failure other than EEXIST is returned immediately as an
OS-error value with no further kernel operation. -/
theorem C1_create_or_join (host : SysvHost) (cnt : Nat) :
    (hasSetval (semNew host cnt).2 = true ↔ ∃ semid, host.semget_excl = Except.ok semid) ∧
    (∀ e2, host.semget_excl = Except.error EEXIST → host.semget_open = Except.error e2 →
      semNew host cnt =
        (Except.error (IpcError.osError e2), [KernelOp.semgetExcl, KernelOp.semgetOpen])) ∧
    (∀ e, host.semget_excl = Except.error e → e ≠ EEXIST →
      semNew host cnt = (Except.error (IpcError.osError e), [KernelOp.semgetExcl])) := by
  refine ⟨?_, ?_, ?_⟩
  · cases hc : host.semget_excl with
    | ok semid =>
      constructor
      · intro _
        exact ⟨semid, rfl⟩
      · intro _
        cases hs : host.setval_result with
        | some e => simp [semNew, hc, hs, hasSetval]
        | none =>
          cases ho : host.semop_init_result with
          | some e => simp [semNew, hc, hs, ho, hasSetval]
          | none => simp [semNew, hc, hs, ho, hasSetval]
    | error e =>
      by_cases he : e = EEXIST
      · subst he
        cases hop : host.semget_open with
        | error e2 =>
          constructor
          · intro hset
            simp [semNew, hc, hop, hasSetval] at hset
          · rintro ⟨s, hs⟩
            cases hs
        | ok semid =>
          rw [semNew_join host cnt semid hc hop]
          constructor
          · intro hset
            rw [hasSetval_joinTrace] at hset
            cases hset
          · rintro ⟨s, hs⟩
            cases hs
      · simp only [semNew, hc, if_neg he]
        constructor
        · intro hset
          simp [hasSetval] at hset
        · rintro ⟨s, hs⟩
          cases hs
  · intro e2 hc hop
    simp [semNew, hc, hop]
  · intro e hc hne
    simp [semNew, hc, hne]

theorem C1_create_or_join_witness :
    semNew hostJoinOpenFail 1 =
      (Except.error (IpcError.osError 2), [KernelOp.semgetExcl, KernelOp.semgetOpen]) ∧
    semNew hostOtherErr 1 = (Except.error (IpcError.osError 13), [KernelOp.semgetExcl]) :=
  ⟨(C1_create_or_join hostJoinOpenFail 1).2.1 2 rfl rfl,
   (C1_create_or_join hostOtherErr 1).2.2 13 rfl (by decide)⟩

/-- C2: a creator (exclusive create succeeded) whose SETVAL or whose
initializing semop fails destroys the set it just allocated (the trace
ends with IPC_RMID on the same semid) and returns that failure's errno
as the error value. -/
theorem C2_rollback (host : SysvHost) (cnt : Nat) (semid : Nat)
    (hc : host.semget_excl = Except.ok semid) :
    (∀ e, host.setval_result = some e →
      semNew host cnt = (Except.error (IpcError.osError e),
        [KernelOp.semgetExcl, KernelOp.setval semid 0, KernelOp.rmid semid])) ∧
    (∀ e, host.setval_result = none → host.semop_init_result = some e →
      semNew host cnt = (Except.error (IpcError.osError e),
        [KernelOp.semgetExcl, KernelOp.setval semid 0,
          KernelOp.semop semid (toInt16 cnt) 0, KernelOp.rmid semid])) := by
  constructor
  · intro e hs
    simp [semNew, hc, hs]
  · intro e hs ho
    simp [semNew, hc, hs, ho]

theorem C2_rollback_witness :
    semNew hostSetvalFail 1 = (Except.error (IpcError.osError 28),
      [KernelOp.semgetExcl, KernelOp.setval 7 0, KernelOp.rmid 7]) ∧
    semNew hostSemopFail 1 = (Except.error (IpcError.osError 28),
      [KernelOp.semgetExcl, KernelOp.setval 7 0,
        KernelOp.semop 7 (toInt16 1) 0, KernelOp.rmid 7]) :=
  ⟨(C2_rollback hostSetvalFail 1 7 rfl).1 28 rfl,
   (C2_rollback hostSemopFail 1 7 rfl).2 28 rfl rfl⟩

/-- C3: a joiner performs at most 1000 metadata reads in every execution;
if the marker stays 0 for all 1000 reads the result is the distinguishable
TimedOut error after exactly 1000 reads; and the polling stops at the
first read that observes a nonzero marker, returning the joined semid.
Termination is inherent: semNew is a total function. -/
theorem C3_bounded_polling (host : SysvHost) (cnt : Nat) :
    statReads (semNew host cnt).2 ≤ 1000 ∧
    (∀ semid, host.semget_excl = Except.error EEXIST → host.semget_open = Except.ok semid →
      (∀ j, j < 1000 → host.stat_result j = Except.ok 0) →
      (semNew host cnt).1 = Except.error IpcError.timedOut ∧
        statReads (semNew host cnt).2 = 1000) ∧
    (∀ semid i t, host.semget_excl = Except.error EEXIST →
      host.semget_open = Except.ok semid →
      i < 1000 → (∀ j, j < i → host.stat_result j = Except.ok 0) →
      host.stat_result i = Except.ok t → t ≠ 0 →
      (semNew host cnt).1 = Except.ok semid ∧ statReads (semNew host cnt).2 = i + 1) := by
  refine ⟨?_, ?_, ?_⟩
  · cases hc : host.semget_excl with
    | ok semid =>
      cases hs : host.setval_result with
      | some e => simp [semNew, hc, hs, statReads]
      | none =>
        cases ho : host.semop_init_result with
        | some e => simp [semNew, hc, hs, ho, statReads]
        | none => simp [semNew, hc, hs, ho, statReads]
    | error e =>
      by_cases he : e = EEXIST
      · subst he
        cases hop : host.semget_open with
        | error e2 => simp [semNew, hc, hop, statReads]
        | ok semid =>
          rw [semNew_join host cnt semid hc hop, statReads_cons_join]
          exact le_trans (statReads_le_length _) (joinPoll_length_le host semid 1000 0)
      · simp [semNew, hc, he, statReads]
  · intro semid hc hop hall
    have hpoll := joinPoll_all_zero host semid 1000 0 (fun j _ hj2 => hall j (by omega))
    rw [semNew_join host cnt semid hc hop, hpoll]
    refine ⟨rfl, ?_⟩
    show statReads (KernelOp.semgetExcl :: KernelOp.semgetOpen ::
      List.replicate 1000 (KernelOp.statRead semid)) = 1000
    rw [statReads_cons_join, statReads_replicate]
  · intro semid i t hc hop hilt hzero ht htne
    have hz' : ∀ j, j < i → host.stat_result (0 + j) = Except.ok 0 := by
      intro j hj
      rw [Nat.zero_add]
      exact hzero j hj
    have ht' : host.stat_result (0 + i) = Except.ok t := by
      rw [Nat.zero_add]
      exact ht
    have hpoll := joinPoll_first_nonzero host semid i 1000 0 t hilt hz' ht' htne
    rw [semNew_join host cnt semid hc hop, hpoll]
    refine ⟨rfl, ?_⟩
    show statReads (KernelOp.semgetExcl :: KernelOp.semgetOpen ::
      List.replicate (i + 1) (KernelOp.statRead semid)) = i + 1
    rw [statReads_cons_join, statReads_replicate]

theorem C3_bounded_polling_witness :
    ((semNew hostJoinStuck 1).1 = Except.error IpcError.timedOut ∧
      statReads (semNew hostJoinStuck 1).2 = 1000) ∧
    ((semNew hostJoinReady 1).1 = Except.ok 9 ∧
      statReads (semNew hostJoinReady 1).2 = 1) :=
  ⟨(C3_bounded_polling hostJoinStuck 1).2.1 9 rfl rfl (fun j _ => rfl),
   (C3_bounded_polling hostJoinReady 1).2.2 9 0 1 rfl rfl (by decide)
     (fun j hj => absurd hj (Nat.not_lt_zero j)) rfl (by decide)⟩

/-- C4 counterexample: with every host call succeeding, new(name, 65536)
on the filesystem-token backend succeeds, but the count it leaves is 0,
not 65536: the source passes `cnt as libc::c_short`, and 65536 truncates
to 0 in 16 bits, so the initializing semop adds nothing. -/
theorem C4_initial_count_counterexample :
    (semNew hostCreatorOk 65536).1 = Except.ok 7 ∧
    applyTrace 0 (semNew hostCreatorOk 65536).2 = 0 ∧
    applyTrace 0 (semNew hostCreatorOk 65536).2 ≠ 65536 := by
  refine ⟨rfl, rfl, ?_⟩
  decide

/-- C4 (amended to counts that the operand casts represent exactly:
below 2 to the 15 on the filesystem-token backend, whose semop operand
is a c_short, and below 2 to the 31 on the atomic-create backend, whose
initial count is a LONG): a successful creating new leaves the count
exactly equal to initial_count; the filesystem-token backend's trace is
exactly one raw SETVAL to the baseline 0 followed by one single atomic
increment of initial_count and no second raw set, and replaying that
trace from any undefined initial value yields initial_count; the
atomic-create backend passes initial_count itself to CreateSemaphoreW. -/
theorem C4_initial_count (host : SysvHost) (cnt semid : Nat)
    (h : String → String → Nat) (name : String) (wcnt : Nat)
    (hc : host.semget_excl = Except.ok semid)
    (hs : host.setval_result = none) (ho : host.semop_init_result = none)
    (hcnt : cnt < 32768) (hwcnt : wcnt < 2147483648) :
    semNew host cnt = (Except.ok semid,
      [KernelOp.semgetExcl, KernelOp.setval semid 0,
        KernelOp.semop semid (cnt : Int) 0]) ∧
    (∀ v0 : Int, applyTrace v0 (semNew host cnt).2 = cnt) ∧
    (winNewCall h name wcnt).initialCount = wcnt := by
  have he : semNew host cnt = (Except.ok semid,
      [KernelOp.semgetExcl, KernelOp.setval semid 0,
        KernelOp.semop semid (cnt : Int) 0]) := by
    rw [show ((cnt : Int)) = toInt16 cnt from (toInt16_of_lt cnt hcnt).symm]
    simp [semNew, hc, hs, ho]
  refine ⟨he, ?_, ?_⟩
  · intro v0
    rw [he]
    simp [applyTrace, applyOp]
  · simp only [winNewCall]
    exact toInt32_of_lt wcnt hwcnt

theorem C4_initial_count_witness :
    semNew hostCreatorOk 3 = (Except.ok 7,
      [KernelOp.semgetExcl, KernelOp.setval 7 0, KernelOp.semop 7 3 0]) ∧
    applyTrace 5 (semNew hostCreatorOk 3).2 = 3 ∧
    (winNewCall (fun _ _ => 0) "a" 4).initialCount = 4 :=
  ⟨(C4_initial_count hostCreatorOk 3 7 (fun _ _ => 0) "a" 4 rfl rfl rfl
      (by decide) (by decide)).1,
   (C4_initial_count hostCreatorOk 3 7 (fun _ _ => 0) "a" 4 rfl rfl rfl
      (by decide) (by decide)).2.1 5,
   (C4_initial_count hostCreatorOk 3 7 (fun _ _ => 0) "a" 4 rfl rfl rfl
      (by decide) (by decide)).2.2⟩

/-- C5: on both backends try_wait on count 0 returns false and leaves
the count 0; on count at least 1 it returns true and decrements by
exactly one; an errno other than EAGAIN on the unix backend, or a code
other than WAIT_OBJECT_0 and WAIT_TIMEOUT on the windows backend,
aborts the process (the panicked outcome) instead of returning a value. -/
theorem C5_try_wait_semantics :
    (unixTryWait 0 = (TryOutcome.ret false, 0) ∧
      winTryWait 0 = (TryOutcome.ret false, 0)) ∧
    (∀ v, 1 ≤ v → unixTryWait v = (TryOutcome.ret true, v - 1) ∧
      winTryWait v = (TryOutcome.ret true, v - 1)) ∧
    (∀ e, e ≠ EAGAIN → unixTryDispatch (some e) = TryOutcome.panicked) ∧
    (∀ c, c ≠ WAIT_OBJECT_0 → c ≠ WAIT_TIMEOUT →
      winTryDispatch c = TryOutcome.panicked) := by
  refine ⟨by decide, ?_, ?_, ?_⟩
  · intro v hv
    have h0 : v ≠ 0 := by omega
    constructor
    · simp [unixTryWait, sysvTryDec, unixTryDispatch, h0]
    · simp [winTryWait, winTryDec, winTryDispatch, h0, WAIT_OBJECT_0, WAIT_TIMEOUT]
  · intro e he
    simp [unixTryDispatch, he]
  · intro c h1 h2
    simp [winTryDispatch, h1, h2]

theorem C5_try_wait_semantics_witness :
    (unixTryWait 2 = (TryOutcome.ret true, 1) ∧
      winTryWait 2 = (TryOutcome.ret true, 1)) ∧
    unixTryDispatch (some 5) = TryOutcome.panicked ∧
    winTryDispatch 7 = TryOutcome.panicked :=
  ⟨(C5_try_wait_semantics).2.1 2 (by decide),
   (C5_try_wait_semantics).2.2.1 5 (by decide),
   (C5_try_wait_semantics).2.2.2 7 (by decide) (by decide)⟩

/-- C6: the unix wait loop returns normally only when an attempt's
decrement succeeded and every earlier attempt failed with EINTR (the
retries are transparent); conversely a success after any number of
EINTR failures returns normally, and a failure with any errno other
than EINTR after EINTR-only failures aborts the process (panicked),
never returning an error value (WaitOutcome has no error constructor).
On the windows backend WAIT_OBJECT_0 returns and every other code
aborts. -/
theorem C6_wait_retry (env : Nat → Option Nat) (fuel : Nat) :
    (∀ k, unixWait env fuel = WaitOutcome.returned k →
      env k = none ∧ ∀ j, j < k → env j = some EINTR) ∧
    (∀ k, k < fuel → env k = none → (∀ j, j < k → env j = some EINTR) →
      unixWait env fuel = WaitOutcome.returned k) ∧
    (∀ k e, k < fuel → env k = some e → e ≠ EINTR →
      (∀ j, j < k → env j = some EINTR) →
      unixWait env fuel = WaitOutcome.panicked e) ∧
    winWaitDispatch WAIT_OBJECT_0 = UnitOutcome.returned ∧
    (∀ c, c ≠ WAIT_OBJECT_0 → winWaitDispatch c = UnitOutcome.panicked c) := by
  refine ⟨?_, ?_, ?_, by decide, ?_⟩
  · intro k hret
    obtain ⟨h1, _, h3⟩ := unixWaitLoop_returned env fuel 0 k hret
    exact ⟨h1, fun j hj => h3 j (Nat.zero_le j) hj⟩
  · intro k hk hnone hintr
    exact unixWaitLoop_success env fuel 0 k (Nat.zero_le k) (by omega) hnone
      (fun j _ hj => hintr j hj)
  · intro k e hk hsome hne hintr
    exact unixWaitLoop_panic env fuel 0 k e (Nat.zero_le k) (by omega) hsome hne
      (fun j _ hj => hintr j hj)
  · intro c hc
    simp [winWaitDispatch, hc]

theorem C6_wait_retry_witness :
    unixWait (fun k => if k < 2 then some EINTR else none) 10 = WaitOutcome.returned 2 ∧
    unixWait (fun _ => some 5) 3 = WaitOutcome.panicked 5 ∧
    winWaitDispatch 7 = UnitOutcome.panicked 7 :=
  ⟨(C6_wait_retry (fun k => if k < 2 then some EINTR else none) 10).2.1 2
      (by decide) (by decide) (fun j hj => by simp [hj]),
   (C6_wait_retry (fun _ => some 5) 3).2.2.1 0 5 (by decide) rfl (by decide)
      (fun j hj => absurd hj (Nat.not_lt_zero j)),
   (C6_wait_retry (fun _ => none) 1).2.2.2.2 7 (by decide)⟩

/-- Host for the key derivation on which both create_dir_all attempts
succeed, the exclusive open fails with EEXIST (the token already
exists), and ftok returns key 42. -/
def fsHostTokenExists : FsHost :=
  { create_dir1 := none, create_dir2 := none, open_ret := -1, open_errno := EEXIST,
    ftok_ret := 42, ftok_errno := 0 }

/-- Host for the key derivation on which the second create_dir_all
attempt fails with errno 13 (EACCES). -/
def fsHostDirFail : FsHost := { fsHostTokenExists with create_dir2 := some 13 }

/-- C7 counterexample: when the second create_dir_all attempt fails
(errno 13 here), Semaphore::key calls .unwrap() on the failed Result and
aborts the process; the outcome is not an error value returned through
the Result of new, contradicting the claim's surfacing mechanism. -/
theorem C7_dir_double_attempt_counterexample :
    semKey fsHostDirFail = KeyOutcome.abort ∧
    (semKey fsHostDirFail).isErrValue = false :=
  ⟨rfl, rfl⟩

/-- C7 (amended: the second attempt's failure aborts the process through
the unwrap panic instead of being surfaced as an I/O error value in the
Result of new): the first create_dir_all attempt's outcome is ignored
(the result of key is the same whatever it is), a failing second attempt
makes key abort rather than return an error value, and already-exists
outcomes are never failures: create_dir_all returns Ok on an existing
directory (host model), and an EEXIST from the exclusive token open
continues to the ftok step as success. -/
theorem C7_dir_double_attempt (host : FsHost) (x : Option Nat) :
    semKey { host with create_dir1 := x } = semKey host ∧
    (∀ e, host.create_dir2 = some e →
      semKey host = KeyOutcome.abort ∧ (semKey host).isErrValue = false) ∧
    (host.create_dir2 = none → host.open_ret ≤ 0 → host.open_errno = EEXIST →
      semKey host = ftokStep host) := by
  refine ⟨rfl, ?_, ?_⟩
  · intro e he
    simp [semKey, he, KeyOutcome.isErrValue]
  · intro h2 hor hoe
    simp only [semKey, h2]
    rw [if_neg (by omega), if_pos hoe]

theorem C7_dir_double_attempt_witness :
    semKey fsHostDirFail = KeyOutcome.abort ∧
    (semKey fsHostDirFail).isErrValue = false ∧
    semKey fsHostTokenExists = ftokStep fsHostTokenExists :=
  ⟨((C7_dir_double_attempt fsHostDirFail none).2.1 13 rfl).1,
   ((C7_dir_double_attempt fsHostDirFail none).2.1 13 rfl).2,
   (C7_dir_double_attempt fsHostTokenExists none).2.2 rfl (by decide) rfl⟩

/-- C8: for every name, hash function and temp directory, the derived
token path is the temp dir, the app-namespace directory ipc-rs-sems, and
a final component equal to the name filtered to its ASCII alphanumeric
characters in order (the spec-side filter, possibly empty), a dash, and
the 64-bit hash of the pair of the name and the fixed salt ipc-rs.
Derivation is a total Lean function, so it raises no error on any
input. -/
theorem C8_token_path (h : String → String → Nat) (tempDir : List String) (name : String) :
    semFilename h tempDir name =
      tempDir ++ ["ipc-rs-sems",
        specAsciiAlnumFragment name ++ "-" ++ toString (h name "ipc-rs")] := by
  unfold semFilename filenameFragment specAsciiAlnumFragment
  rw [List.filter_congr (fun c _ => filenameCharOk_eq c)]

/-- C9: key derivation is deterministic on both backends (equal names
yield the same rendezvous token and the same windows object name), and
both backends hash the same pair: the name together with the fixed salt
ipc-rs, as the final conjuncts expose syntactically. -/
theorem C9_deterministic (h : String → String → Nat) (tempDir : List String)
    (n1 n2 : String) (heq : n1 = n2) :
    semFilename h tempDir n1 = semFilename h tempDir n2 ∧
    winSemName h n1 = winSemName h n2 ∧
    semFilename h tempDir n1 =
      tempDir ++ ["ipc-rs-sems",
        filenameFragment n1 ++ "-" ++ toString (h n1 "ipc-rs")] ∧
    winSemName h n1 =
      "Global\\" ++ (n1.replace "\\" "") ++ "-" ++ toString (h n1 "ipc-rs") := by
  subst heq
  exact ⟨rfl, rfl, rfl, rfl⟩

theorem C9_deterministic_witness :
    semFilename (fun _ _ => 0) [] "ab" = semFilename (fun _ _ => 0) [] "ab" ∧
    winSemName (fun _ _ => 0) "ab" = winSemName (fun _ _ => 0) "ab" ∧
    semFilename (fun _ _ => 0) [] "ab" =
      [] ++ ["ipc-rs-sems",
        filenameFragment "ab" ++ "-" ++ toString ((fun (_ _ : String) => 0) "ab" "ipc-rs")] ∧
    winSemName (fun _ _ => 0) "ab" =
      "Global\\" ++ ("ab".replace "\\" "") ++ "-" ++
        toString ((fun (_ _ : String) => 0) "ab" "ipc-rs") :=
  C9_deterministic (fun _ _ => 0) [] "ab" "ab" rfl

/-- C10: the sembufs issued by wait, try_wait and post all carry the
SEM_UNDO bit (bit 12, value 0x1000) in sem_flg — including post's, whose
operation is the increment by one — so the host reverses a process's
outstanding increments too on abnormal exit; try_wait additionally sets
IPC_NOWAIT and wait and post do not. -/
theorem C10_sem_undo_flag :
    Nat.land waitBuf.sem_flg SEM_UNDO = SEM_UNDO ∧
    Nat.land tryWaitBuf.sem_flg SEM_UNDO = SEM_UNDO ∧
    Nat.land postBuf.sem_flg SEM_UNDO = SEM_UNDO ∧
    postBuf.sem_op = 1 ∧ waitBuf.sem_op = -1 ∧ tryWaitBuf.sem_op = -1 ∧
    waitBuf.sem_flg = SEM_UNDO ∧ postBuf.sem_flg = SEM_UNDO ∧
    tryWaitBuf.sem_flg = Nat.lor IPC_NOWAIT SEM_UNDO := by
  decide

end IpcRs
